import Mathlib

/-!
Shallow embedding of `src/k_graph.py` (sunflower phyllotaxis generator).

Python floats are modelled exactly: quantities built from field arithmetic
alone live in `ℚ`, quantities passing through `np.sqrt`, `np.cos`, `np.sin`
or `np.pi` live in `ℝ`.  A Python runtime failure (the `NameError` raised
at line 54 when no `color_scheme` branch assigned `r`, `g`, `b`) is
modelled by `Option`: `none` is a crashed generation.  The FastAPI layer
(`generate_phyllotaxis`, `get_preset`) is modelled with `Except ℕ`, the
error being the HTTP status code the code raises.
-/

/-- Parameter object of the source (`PhyllotaxisParams`, lines 13-18),
with the pydantic defaults recorded as structure defaults. -/
structure PhyllotaxisParams where
  num_points : ℕ := 1000
  golden_angle_multiplier : ℚ := 1
  radius : ℚ := 10
  animation_frames : ℕ := 100
  color_scheme : String := "blue_to_red"
deriving DecidableEq

/-- One emitted color.  The source emits the string
`rgba(r, g, b, 0.9)` (line 54); we keep the four components. -/
structure RGBA where
  r : ℤ
  g : ℤ
  b : ℤ
  a : ℚ
deriving DecidableEq

/-- One camera-eye position (the dict built at lines 63-67). -/
structure CameraEye where
  x : ℝ
  y : ℝ
  z : ℝ

/-- The response record of the source (`PhyllotaxisResponse`, lines 20-26). -/
structure PhyllotaxisResponse where
  x_vals : List ℝ
  y_vals : List ℝ
  z_vals : List ℚ
  time_vals : List ℚ
  color_vals : List RGBA
  frames : List CameraEye

/-- Python `int()` on an exact rational: truncation toward zero. -/
def pyInt (q : ℚ) : ℤ := if 0 ≤ q then ⌊q⌋ else ⌈q⌉

/-- Python float `%` (for the positive modulus used at lines 46-47):
`a % b = a - b * floor (a / b)`. -/
def fmod (a b : ℚ) : ℚ := a - b * (⌊a / b⌋ : ℚ)

/-- `np.linspace a b n`: `n` evenly spaced samples from `a` to `b`,
endpoint included; a single sample is `[a]` (lines 30 and 62). -/
def linspace (a b : ℚ) (n : ℕ) : List ℚ :=
  if n = 1 then [a]
  else (List.range n).map (fun i : ℕ => a + (b - a) * (i : ℚ) / ((n : ℚ) - 1))

/-- The color branch of the loop body (lines 40-53).  `none` models the
`NameError` a later line raises when no branch matched. -/
def colorFor (scheme : String) (t : ℚ) : Option RGBA :=
  if scheme = "blue_to_red" then
    some ⟨pyInt (255 * t), pyInt (100 * (1 - t)), pyInt (255 * (1 - t)), 0.9⟩
  else if scheme = "rainbow" then
    some ⟨pyInt (if t * 360 < 120 then 255 * (1 - |fmod (t * 360 / 60) 2 - 1|)
                 else 255 * (1 - t)),
          pyInt (if t * 360 < 120 then 255 * t
                 else 255 * (1 - |fmod (t * 360 / 60) 2 - 1|)),
          pyInt (if t * 360 < 240 then 255 * (1 - t) else 255 * t), 0.9⟩
  else if scheme = "green_to_purple" then
    some ⟨pyInt (128 + 127 * t), pyInt (255 * (1 - t)), pyInt (128 + 127 * t), 0.9⟩
  else none

/-- Running the color branch over every `t` of the loop; the whole
generation crashes at the first `t` whose branch is missing. -/
def colorsFor (scheme : String) : List ℚ → Option (List RGBA)
  | [] => some []
  | t :: ts =>
    match colorFor scheme t, colorsFor scheme ts with
    | some c, some cs => some (c :: cs)
    | _, _ => none

/-- Whether `scheme` is one of the three branches of lines 40-53. -/
def schemeValid (scheme : String) : Bool :=
  scheme = "blue_to_red" || scheme = "rainbow" || scheme = "green_to_purple"

/-- `golden_angle = np.pi * (3 - np.sqrt 5) * multiplier` (line 29). -/
noncomputable def goldenAngle (mult : ℚ) : ℝ :=
  Real.pi * (3 - Real.sqrt 5) * (mult : ℝ)

/-- `z = 1 - (2 * i) / num_points` (line 35), before scaling by `radius`. -/
def zCoord (n i : ℕ) : ℚ := 1 - (2 * i : ℚ) / (n : ℚ)

/-- `x = sqrt (1 - z^2) * cos (i * golden_angle) * radius` (lines 34-37). -/
noncomputable def xCoord (p : PhyllotaxisParams) (i : ℕ) : ℝ :=
  Real.sqrt (1 - ((zCoord p.num_points i : ℚ) : ℝ) ^ 2) *
    Real.cos ((i : ℝ) * goldenAngle p.golden_angle_multiplier) * (p.radius : ℝ)

/-- `y = sqrt (1 - z^2) * sin (i * golden_angle) * radius` (lines 34-38). -/
noncomputable def yCoord (p : PhyllotaxisParams) (i : ℕ) : ℝ :=
  Real.sqrt (1 - ((zCoord p.num_points i : ℚ) : ℝ) ^ 2) *
    Real.sin ((i : ℝ) * goldenAngle p.golden_angle_multiplier) * (p.radius : ℝ)

/-- The `x_vals` list accumulated by the loop (line 55). -/
noncomputable def xVals (p : PhyllotaxisParams) : List ℝ :=
  (List.range p.num_points).map (xCoord p)

/-- The `y_vals` list accumulated by the loop (line 56). -/
noncomputable def yVals (p : PhyllotaxisParams) : List ℝ :=
  (List.range p.num_points).map (yCoord p)

/-- The `z_vals` list accumulated by the loop: `z * radius` (line 57). -/
def zVals (p : PhyllotaxisParams) : List ℚ :=
  (List.range p.num_points).map (fun i => zCoord p.num_points i * p.radius)

/-- The `time_vals` list: `np.linspace 0 1 num_points` (lines 30, 58). -/
def timeVals (p : PhyllotaxisParams) : List ℚ :=
  linspace 0 1 p.num_points

/-- One camera eye: `(1.5 cos (radians angle), 1.5 sin (radians angle), 1)`
(lines 63-67); `np.radians angle = angle * pi / 180`. -/
noncomputable def camEye (angle : ℚ) : CameraEye :=
  ⟨1.5 * Real.cos ((angle : ℝ) * Real.pi / 180),
   1.5 * Real.sin ((angle : ℝ) * Real.pi / 180), 1⟩

/-- The `frames` list: one eye per angle of `np.linspace 0 360 n`
(lines 61-68). -/
noncomputable def cameraFrames (n : ℕ) : List CameraEye :=
  (linspace 0 360 n).map camEye

/-- `generate_sunflower_data` (lines 28-77): the five parallel point lists
plus the camera frames, or `none` when the color branch crashed. -/
noncomputable def generate_sunflower_data (p : PhyllotaxisParams) :
    Option PhyllotaxisResponse :=
  (colorsFor p.color_scheme (timeVals p)).map
    (fun cs => ⟨xVals p, yVals p, zVals p, timeVals p, cs,
                cameraFrames p.animation_frames⟩)

/-- The `/generate` endpoint (lines 129-135): any exception becomes an
HTTP 500 error. -/
noncomputable def generate_phyllotaxis (p : PhyllotaxisParams) :
    Except ℕ PhyllotaxisResponse :=
  match generate_sunflower_data p with
  | some d => Except.ok d
  | none => Except.error 500

/-- The parameter object with the source's actual `int`-typed
`num_points` (the pydantic `int` of line 14 admits negatives);
`PhyllotaxisParams` covers its non-negative fragment. -/
structure PhyllotaxisParamsInt where
  num_points : ℤ := 1000
  golden_angle_multiplier : ℚ := 1
  radius : ℚ := 10
  animation_frames : ℕ := 100
  color_scheme : String := "blue_to_red"
deriving DecidableEq

/-- `generate_sunflower_data` over the `int` domain of `num_points`:
`np.linspace` raises `ValueError` for a negative sample count (the guard
in numpy's `function_base.py`), modelled `none`; for a non-negative
count the call proceeds exactly as `generate_sunflower_data`. -/
noncomputable def generate_sunflower_data_int (q : PhyllotaxisParamsInt) :
    Option PhyllotaxisResponse :=
  if q.num_points < 0 then none
  else generate_sunflower_data ⟨q.num_points.toNat, q.golden_angle_multiplier,
    q.radius, q.animation_frames, q.color_scheme⟩

/-- The `/generate` endpoint over the `int` domain: any exception
(`ValueError` from `np.linspace` or the color-branch `NameError`)
becomes an HTTP 500 error (lines 129-135). -/
noncomputable def generate_phyllotaxis_int (q : PhyllotaxisParamsInt) :
    Except ℕ PhyllotaxisResponse :=
  match generate_sunflower_data_int q with
  | some d => Except.ok d
  | none => Except.error 500

/-- The `/presets/{preset_name}` endpoint (lines 137-149): the fixed
four-entry table, 404 otherwise.  Unset fields take the pydantic
defaults `animation_frames = 100`, `color_scheme = "blue_to_red"`. -/
def get_preset (preset_name : String) : Except ℕ PhyllotaxisParams :=
  if preset_name = "classic" then
    Except.ok ⟨1000, 1, 10, 100, "blue_to_red"⟩
  else if preset_name = "dense" then
    Except.ok ⟨2000, 1, 8, 100, "blue_to_red"⟩
  else if preset_name = "spiral" then
    Except.ok ⟨1500, 1.2, 12, 100, "blue_to_red"⟩
  else if preset_name = "tight" then
    Except.ok ⟨800, 0.8, 6, 100, "blue_to_red"⟩
  else
    Except.error 404

/-! ### Helper lemmas -/

lemma linspace_length (a b : ℚ) (n : ℕ) : (linspace a b n).length = n := by
  unfold linspace
  split
  · simp [*]
  · rw [List.length_map, List.length_range]

lemma colorFor_isSome_of_valid {s : String} (hs : schemeValid s = true) (t : ℚ) :
    (colorFor s t).isSome = true := by
  simp only [schemeValid, Bool.or_eq_true, decide_eq_true_eq] at hs
  rcases hs with (h | h) | h <;> subst h <;> simp [colorFor]

lemma colorFor_none_of_invalid {s : String} (hs : schemeValid s = false) (t : ℚ) :
    colorFor s t = none := by
  simp only [schemeValid, Bool.or_eq_false_iff, decide_eq_false_iff_not] at hs
  unfold colorFor
  rw [if_neg hs.1.1, if_neg hs.1.2, if_neg hs.2]

lemma colorsFor_of_valid {s : String} (hs : schemeValid s = true) (ts : List ℚ) :
    ∃ cs, colorsFor s ts = some cs ∧ cs.length = ts.length := by
  induction ts with
  | nil => exact ⟨[], rfl, rfl⟩
  | cons t ts ih =>
    obtain ⟨c, hc⟩ := Option.isSome_iff_exists.mp (colorFor_isSome_of_valid hs t)
    obtain ⟨cs, hcs, hlen⟩ := ih
    exact ⟨c :: cs, by simp [colorsFor, hc, hcs], by simp [hlen]⟩

lemma colorsFor_of_invalid {s : String} (hs : schemeValid s = false)
    (t : ℚ) (ts : List ℚ) : colorsFor s (t :: ts) = none := by
  simp [colorsFor, colorFor_none_of_invalid hs t]

lemma generate_eq_of_valid (p : PhyllotaxisParams)
    (hs : schemeValid p.color_scheme = true) :
    ∃ cs, cs.length = p.num_points ∧
      generate_sunflower_data p =
        some ⟨xVals p, yVals p, zVals p, timeVals p, cs,
              cameraFrames p.animation_frames⟩ := by
  obtain ⟨cs, hcs, hlen⟩ := colorsFor_of_valid hs (timeVals p)
  refine ⟨cs, ?_, ?_⟩
  · rw [hlen]; exact linspace_length 0 1 p.num_points
  · rw [generate_sunflower_data, hcs, Option.map_some']

lemma generate_none_of_invalid {p : PhyllotaxisParams}
    (hs : schemeValid p.color_scheme = false) (hn : 1 ≤ p.num_points) :
    generate_sunflower_data p = none := by
  rw [generate_sunflower_data]
  cases h : timeVals p with
  | nil =>
    exfalso
    have hlen : (timeVals p).length = p.num_points :=
      linspace_length 0 1 p.num_points
    rw [h] at hlen
    simp at hlen
    omega
  | cons t ts =>
    rw [colorsFor_of_invalid hs t ts]
    rfl

lemma mapRange_getD {α : Type} (f : ℕ → α) (n i : ℕ) (d : α) (hi : i < n) :
    ((List.range n).map f).getD i d = f i := by
  rw [List.getD_eq_getElem?_getD, List.getElem?_map]
  simp [List.getElem?_range, hi]

lemma pyInt_bounds {q : ℚ} (h0 : 0 ≤ q) (h1 : q ≤ 255) :
    0 ≤ pyInt q ∧ pyInt q ≤ 255 := by
  unfold pyInt
  rw [if_pos h0]
  refine ⟨Int.floor_nonneg.mpr h0, ?_⟩
  have h2 : (⌊q⌋ : ℤ) ≤ ⌊(255 : ℚ)⌋ := Int.floor_mono h1
  simpa using h2

lemma fmod_bounds (a : ℚ) {b : ℚ} (hb : 0 < b) :
    0 ≤ fmod a b ∧ fmod a b < b := by
  unfold fmod
  have hfl : (⌊a / b⌋ : ℚ) ≤ a / b := Int.floor_le (a / b)
  have hfu : a / b < (⌊a / b⌋ : ℚ) + 1 := Int.lt_floor_add_one (a / b)
  have hcancel : a / b * b = a := div_mul_cancel₀ a (ne_of_gt hb)
  constructor
  · nlinarith [mul_le_mul_of_nonneg_right hfl hb.le]
  · nlinarith [mul_le_mul_of_nonneg_right hfu.le hb.le,
      mul_lt_mul_of_pos_right hfu hb]

lemma one_sub_zCoord_sq_nonneg {n i : ℕ} (hn : 1 ≤ n) (hi : i < n) :
    0 ≤ 1 - zCoord n i ^ 2 := by
  unfold zCoord
  have hn0 : (0 : ℚ) < (n : ℚ) := by exact_mod_cast hn
  have h0 : (0 : ℚ) ≤ (2 * i : ℚ) / (n : ℚ) := by positivity
  have hin : (i : ℚ) < (n : ℚ) := by exact_mod_cast hi
  have h2 : (2 * i : ℚ) / (n : ℚ) < 2 := by
    rw [div_lt_iff₀ hn0]; linarith
  nlinarith

/-! ### Claim theorems -/

/-- Claim C9: for every `point_count ≥ 1` and index `i < point_count`, the
argument `1 - z_i^2` passed to `np.sqrt` at line 36 (with
`z_i = 1 - 2*i/point_count`) is non-negative, so the square root never
receives a negative argument even though the code omits a `max 0` clamp. -/
theorem C9_sqrt_argument_nonneg (n i : ℕ) (hn : 1 ≤ n) (hi : i < n) :
    (0 : ℝ) ≤ 1 - ((zCoord n i : ℚ) : ℝ) ^ 2 := by
  have h := one_sub_zCoord_sq_nonneg hn hi
  have h2 : ((0 : ℚ) : ℝ) ≤ ((1 - zCoord n i ^ 2 : ℚ) : ℝ) := by exact_mod_cast h
  push_cast at h2
  linarith

/-- Witness for C9 at `n = 2`, `i = 1`. -/
theorem C9_sqrt_argument_nonneg_witness :
    (0 : ℝ) ≤ 1 - ((zCoord 2 1 : ℚ) : ℝ) ^ 2 :=
  C9_sqrt_argument_nonneg 2 1 (by decide) (by decide)

/-- Claim C10: calling `generate_sunflower_data` with `num_points = 0`
raises no error and returns a result whose `x`, `y`, `z`, `t` and color
sequences are all empty — the `point_count ≥ 1` precondition is not
enforced (the loop body, including the color branch, never runs). -/
theorem C10_zero_points_empty (mult radius : ℚ) (fc : ℕ) (scheme : String) :
    (generate_sunflower_data ⟨0, mult, radius, fc, scheme⟩).map
      (fun r => (r.x_vals, r.y_vals, r.z_vals, r.time_vals, r.color_vals)) =
    some ([], [], [], [], []) := by
  have ht : timeVals ⟨0, mult, radius, fc, scheme⟩ = [] := by
    simp [timeVals, linspace]
  simp [generate_sunflower_data, ht, colorsFor, xVals, yVals, zVals]

/-- Claim C6: the preset lookup maps exactly the four names `classic`,
`dense`, `spiral`, `tight` to the parameter sets of lines 140-143 (the
remaining fields keep the pydantic defaults), and any other name yields
the 404 Not-Found error of line 147. -/
theorem C6_preset_table :
    get_preset "classic" = Except.ok ⟨1000, 1, 10, 100, "blue_to_red"⟩ ∧
    get_preset "dense" = Except.ok ⟨2000, 1, 8, 100, "blue_to_red"⟩ ∧
    get_preset "spiral" = Except.ok ⟨1500, 1.2, 12, 100, "blue_to_red"⟩ ∧
    get_preset "tight" = Except.ok ⟨800, 0.8, 6, 100, "blue_to_red"⟩ ∧
    ∀ s : String, s ≠ "classic" → s ≠ "dense" → s ≠ "spiral" → s ≠ "tight" →
      get_preset s = Except.error 404 := by
  refine ⟨rfl, rfl, rfl, rfl, ?_⟩
  intro s h1 h2 h3 h4
  unfold get_preset
  rw [if_neg h1, if_neg h2, if_neg h3, if_neg h4]

/-- Witness for C6: one known preset and one unknown name. -/
theorem C6_preset_table_witness :
    get_preset "classic" = Except.ok ⟨1000, 1, 10, 100, "blue_to_red"⟩ ∧
    get_preset "unknown" = Except.error 404 :=
  ⟨C6_preset_table.1,
   C6_preset_table.2.2.2.2 "unknown" (by decide) (by decide) (by decide)
     (by decide)⟩

/-- Counterexample to claim C5: `radius = -1 ≤ 0` is an invalid parameter,
yet generation does not fail at all — there is no validation in the code,
so no `InvalidParameter` error is ever produced. -/
theorem C5_counterexample :
    (generate_sunflower_data ⟨5, 1, -1, 100, "blue_to_red"⟩).isSome = true := by
  obtain ⟨cs, _, hgen⟩ :=
    generate_eq_of_valid ⟨5, 1, -1, 100, "blue_to_red"⟩ (by decide)
  rw [hgen]
  rfl

/-- Claim C5 as amended: no parameter is ever rejected with an
`InvalidParameter` error naming the field, because the code performs no
validation.  Over the source's `int`-typed `num_points`: with a
recognized color scheme, generation succeeds with no error for every
`point_count ≥ 0` and every radius (including `radius ≤ 0` and the empty
`point_count = 0`); a negative `point_count` makes `np.linspace` raise
`ValueError`, and an unknown color scheme (with `point_count ≥ 1`)
raises `NameError` at the first point — each surfaced by the
`/generate` endpoint as a generic HTTP 500 error. -/
theorem C5_amended_no_validation :
    (∀ q : PhyllotaxisParamsInt, schemeValid q.color_scheme = true →
      0 ≤ q.num_points → (generate_sunflower_data_int q).isSome = true) ∧
    (∀ q : PhyllotaxisParamsInt, q.num_points < 0 →
      generate_sunflower_data_int q = none ∧
      generate_phyllotaxis_int q = Except.error 500) ∧
    (∀ q : PhyllotaxisParamsInt, schemeValid q.color_scheme = false →
      1 ≤ q.num_points →
      generate_sunflower_data_int q = none ∧
      generate_phyllotaxis_int q = Except.error 500) := by
  refine ⟨?_, ?_, ?_⟩
  · intro q hs h0
    rw [generate_sunflower_data_int, if_neg (not_lt.mpr h0)]
    obtain ⟨cs, _, hgen⟩ := generate_eq_of_valid
      ⟨q.num_points.toNat, q.golden_angle_multiplier, q.radius,
        q.animation_frames, q.color_scheme⟩ hs
    rw [hgen]
    rfl
  · intro q hneg
    have hnone : generate_sunflower_data_int q = none := by
      rw [generate_sunflower_data_int, if_pos hneg]
    refine ⟨hnone, ?_⟩
    rw [generate_phyllotaxis_int, hnone]
  · intro q hs h1
    have hnone : generate_sunflower_data_int q = none := by
      rw [generate_sunflower_data_int, if_neg (by omega : ¬q.num_points < 0)]
      exact generate_none_of_invalid hs (by omega : 1 ≤ q.num_points.toNat)
    refine ⟨hnone, ?_⟩
    rw [generate_phyllotaxis_int, hnone]

/-- Witness for C5's amended claim: `radius = 0` with a valid scheme
succeeds; `num_points = -1` fails as HTTP 500; the unknown scheme
`viridis` fails as HTTP 500. -/
theorem C5_amended_no_validation_witness :
    (generate_sunflower_data_int ⟨5, 1, 0, 100, "blue_to_red"⟩).isSome = true ∧
    generate_sunflower_data_int ⟨-1, 1, 1, 100, "blue_to_red"⟩ = none ∧
    generate_phyllotaxis_int ⟨-1, 1, 1, 100, "blue_to_red"⟩ =
      Except.error 500 ∧
    generate_sunflower_data_int ⟨5, 1, 1, 100, "viridis"⟩ = none ∧
    generate_phyllotaxis_int ⟨5, 1, 1, 100, "viridis"⟩ = Except.error 500 :=
  ⟨C5_amended_no_validation.1 ⟨5, 1, 0, 100, "blue_to_red"⟩ (by decide)
     (by decide),
   (C5_amended_no_validation.2.1 ⟨-1, 1, 1, 100, "blue_to_red"⟩ (by decide)).1,
   (C5_amended_no_validation.2.1 ⟨-1, 1, 1, 100, "blue_to_red"⟩ (by decide)).2,
   (C5_amended_no_validation.2.2 ⟨5, 1, 1, 100, "viridis"⟩ (by decide)
     (by decide)).1,
   (C5_amended_no_validation.2.2 ⟨5, 1, 1, 100, "viridis"⟩ (by decide)
     (by decide)).2⟩

/-- Counterexample to claim C8: for `{point_count = 3, angle_multiplier = 1,
radius = 1, color_scheme = blue_to_red}` the generated `z_vals` are
`[1, 1/3, -1/3]` (the code divides by `num_points`, not `num_points - 1`),
not the claimed `[1, 0, -1]`. -/
theorem C8_counterexample :
    (generate_sunflower_data ⟨3, 1, 1, 100, "blue_to_red"⟩).map
      (fun r => r.z_vals) = some [1, 1/3, -1/3] ∧
    ([1, 1/3, -1/3] : List ℚ) ≠ [1, 0, -1] := by
  constructor
  · have ht : timeVals ⟨3, 1, 1, 100, "blue_to_red"⟩ = [0, 1/2, 1] := by
      norm_num [timeVals, linspace, List.range_succ]
    have hcs : colorsFor "blue_to_red" [0, 1/2, 1] =
        some [⟨0, 100, 255, 0.9⟩, ⟨127, 50, 127, 0.9⟩, ⟨255, 0, 0, 0.9⟩] := by
      norm_num [colorsFor, colorFor, pyInt]
    have hz : zVals ⟨3, 1, 1, 100, "blue_to_red"⟩ = [1, 1/3, -1/3] := by
      norm_num [zVals, zCoord, List.range_succ]
    simp only [generate_sunflower_data, ht, hcs, hz, Option.map_some']
  · simp

/-- Claim C8 as amended: for `{point_count = 3, angle_multiplier = 1,
radius = 1, color_scheme = blue_to_red}` generation yields
`t = [0, 1/2, 1]`, `z = [1, 1/3, -1/3]` (since `z_i = 1 - 2i/point_count`),
and colors `rgba(0,100,255,0.9)` at `t = 0` through `rgba(127,50,127,0.9)`
to `rgba(255,0,0,0.9)` at `t = 1`. -/
theorem C8_amended_example_values :
    (generate_sunflower_data ⟨3, 1, 1, 100, "blue_to_red"⟩).map
      (fun r => (r.time_vals, r.z_vals, r.color_vals)) =
    some ([0, 1/2, 1], [1, 1/3, -1/3],
      [⟨0, 100, 255, 0.9⟩, ⟨127, 50, 127, 0.9⟩, ⟨255, 0, 0, 0.9⟩]) := by
  have ht : timeVals ⟨3, 1, 1, 100, "blue_to_red"⟩ = [0, 1/2, 1] := by
    norm_num [timeVals, linspace, List.range_succ]
  have hcs : colorsFor "blue_to_red" [0, 1/2, 1] =
      some [⟨0, 100, 255, 0.9⟩, ⟨127, 50, 127, 0.9⟩, ⟨255, 0, 0, 0.9⟩] := by
    norm_num [colorsFor, colorFor, pyInt]
  have hz : zVals ⟨3, 1, 1, 100, "blue_to_red"⟩ = [1, 1/3, -1/3] := by
    norm_num [zVals, zCoord, List.range_succ]
  simp only [generate_sunflower_data, ht, hcs, hz, Option.map_some']

/-- Claim C1: for every parameter set with `point_count ≥ 1` and
`frame_count ≥ 1` (and a recognized color scheme, per the data-model
enum), `generate_sunflower_data` returns parallel sequences `x_vals`,
`y_vals`, `z_vals`, `time_vals`, `color_vals` each of length exactly
`num_points`, and a `frames` sequence of length exactly
`animation_frames`. -/
theorem C1_parallel_lengths (p : PhyllotaxisParams)
    (hn : 1 ≤ p.num_points) (hf : 1 ≤ p.animation_frames)
    (hs : schemeValid p.color_scheme = true) :
    (generate_sunflower_data p).map
      (fun r => (r.x_vals.length, r.y_vals.length, r.z_vals.length,
                 r.time_vals.length, r.color_vals.length, r.frames.length)) =
    some (p.num_points, p.num_points, p.num_points, p.num_points,
          p.num_points, p.animation_frames) := by
  obtain ⟨cs, hlen, hgen⟩ := generate_eq_of_valid p hs
  rw [hgen, Option.map_some']
  simp only [xVals, yVals, zVals, timeVals, cameraFrames, List.length_map,
    List.length_range, linspace_length, hlen]

/-- Witness for C1 at a small concrete parameter set. -/
theorem C1_parallel_lengths_witness :
    (generate_sunflower_data ⟨3, 1, 1, 4, "blue_to_red"⟩).map
      (fun r => (r.x_vals.length, r.y_vals.length, r.z_vals.length,
                 r.time_vals.length, r.color_vals.length, r.frames.length)) =
    some (3, 3, 3, 3, 3, 4) :=
  C1_parallel_lengths ⟨3, 1, 1, 4, "blue_to_red"⟩ (by decide) (by decide)
    (by decide)

/-- Claim C4: under each of the three recognized color schemes and for any
`t ∈ [0,1]`, every produced color has integer channels in `[0,255]` and
alpha exactly `0.9`. -/
theorem C4_color_channel_ranges (s : String) (t : ℚ)
    (hs : schemeValid s = true) (h0 : 0 ≤ t) (h1 : t ≤ 1) :
    (colorFor s t).isSome = true ∧
    ∀ c, colorFor s t = some c →
      (0 ≤ c.r ∧ c.r ≤ 255) ∧ (0 ≤ c.g ∧ c.g ≤ 255) ∧
      (0 ≤ c.b ∧ c.b ≤ 255) ∧ c.a = 0.9 := by
  refine ⟨colorFor_isSome_of_valid hs t, ?_⟩
  intro c hc
  simp only [schemeValid, Bool.or_eq_true, decide_eq_true_eq] at hs
  rcases hs with (h | h) | h <;> subst h
  · unfold colorFor at hc
    rw [if_pos rfl] at hc
    injection hc with hc
    subst hc
    exact ⟨pyInt_bounds (by linarith) (by linarith),
           pyInt_bounds (by linarith) (by linarith),
           pyInt_bounds (by linarith) (by linarith), rfl⟩
  · unfold colorFor at hc
    rw [if_neg (by decide), if_pos rfl] at hc
    injection hc with hc
    subst hc
    obtain ⟨hm0, hm2⟩ := fmod_bounds (t * 360 / 60) (by norm_num : (0:ℚ) < 2)
    have habs0 : 0 ≤ |fmod (t * 360 / 60) 2 - 1| :=
      abs_nonneg (fmod (t * 360 / 60) 2 - 1)
    have habs1 : |fmod (t * 360 / 60) 2 - 1| ≤ 1 := by
      rw [abs_le]
      constructor <;> linarith
    refine ⟨?_, ?_, ?_, rfl⟩ <;> split_ifs <;>
      exact pyInt_bounds (by linarith) (by linarith)
  · unfold colorFor at hc
    rw [if_neg (by decide), if_neg (by decide), if_pos rfl] at hc
    injection hc with hc
    subst hc
    exact ⟨pyInt_bounds (by linarith) (by linarith),
           pyInt_bounds (by linarith) (by linarith),
           pyInt_bounds (by linarith) (by linarith), rfl⟩

/-- Witness for C4: the rainbow scheme at `t = 1/2`. -/
theorem C4_color_channel_ranges_witness :
    (colorFor "rainbow" (1/2)).isSome = true ∧
    ∀ c, colorFor "rainbow" (1/2) = some c →
      (0 ≤ c.r ∧ c.r ≤ 255) ∧ (0 ≤ c.g ∧ c.g ≤ 255) ∧
      (0 ≤ c.b ∧ c.b ≤ 255) ∧ c.a = 0.9 :=
  C4_color_channel_ranges "rainbow" (1/2) (by decide) (by norm_num)
    (by norm_num)

/-- Claim C2: every point of the generated cloud lies exactly on the
sphere of the requested radius: `x_i^2 + y_i^2 + z_i^2 = radius^2` (the
floating-point tolerance of the claim is not needed over exact reals). -/
theorem C2_points_on_sphere (p : PhyllotaxisParams)
    (hn : 1 ≤ p.num_points) (hr : 0 < p.radius)
    (i : ℕ) (hi : i < p.num_points) :
    ((xVals p).getD i 0) ^ 2 + ((yVals p).getD i 0) ^ 2 +
      (((zVals p).getD i 0 : ℚ) : ℝ) ^ 2 = ((p.radius : ℚ) : ℝ) ^ 2 := by
  rw [xVals, mapRange_getD _ _ _ _ hi, yVals, mapRange_getD _ _ _ _ hi,
    zVals, mapRange_getD _ _ _ _ hi, xCoord, yCoord]
  push_cast
  set z : ℝ := ((zCoord p.num_points i : ℚ) : ℝ) with hzdef
  set R : ℝ := ((p.radius : ℚ) : ℝ) with hRdef
  set θ : ℝ := (i : ℝ) * goldenAngle p.golden_angle_multiplier with hθdef
  have hz2 : z ^ 2 ≤ 1 := by
    have h := one_sub_zCoord_sq_nonneg hn hi
    have h2 : ((0 : ℚ) : ℝ) ≤ ((1 - zCoord p.num_points i ^ 2 : ℚ) : ℝ) := by
      exact_mod_cast h
    push_cast at h2
    rw [hzdef]
    linarith
  have hsq : Real.sqrt (1 - z ^ 2) ^ 2 = 1 - z ^ 2 :=
    Real.sq_sqrt (by linarith)
  have expand : (Real.sqrt (1 - z ^ 2) * Real.cos θ * R) ^ 2 +
      (Real.sqrt (1 - z ^ 2) * Real.sin θ * R) ^ 2 + (z * R) ^ 2 =
      Real.sqrt (1 - z ^ 2) ^ 2 * (Real.sin θ ^ 2 + Real.cos θ ^ 2) * R ^ 2 +
        z ^ 2 * R ^ 2 := by
    ring
  rw [expand, hsq, Real.sin_sq_add_cos_sq]
  ring

/-- Witness for C2 at `num_points = 2`, `radius = 1`, `i = 1`. -/
theorem C2_points_on_sphere_witness :
    ((xVals ⟨2, 1, 1, 1, "blue_to_red"⟩).getD 1 0) ^ 2 +
      ((yVals ⟨2, 1, 1, 1, "blue_to_red"⟩).getD 1 0) ^ 2 +
      (((zVals ⟨2, 1, 1, 1, "blue_to_red"⟩).getD 1 0 : ℚ) : ℝ) ^ 2 =
    ((1 : ℚ) : ℝ) ^ 2 :=
  C2_points_on_sphere ⟨2, 1, 1, 1, "blue_to_red"⟩ (by decide) (by norm_num) 1
    (by decide)

/-- Counterexample to claim C7: with `frame_count = 4`, `np.linspace`
includes the 360-degree endpoint, so the eye angles are
`0°, 120°, 240°, 360°` — not the claimed `0°, 90°, 180°, 270°` (the
second frame differs: `cos 120° = -1/2 ≠ 0 = cos 90°`). -/
theorem C7_counterexample :
    cameraFrames 4 = List.map camEye [0, 120, 240, 360] ∧
    List.map camEye [0, 120, 240, 360] ≠
      [camEye 0, camEye 90, camEye 180, camEye 270] := by
  constructor
  · rw [cameraFrames]
    congr 1
    norm_num [linspace, List.range_succ]
  · intro hEq
    have h2 : camEye 120 = camEye 90 := by
      have h3 := congrArg (fun l => l[1]?) hEq
      simpa using h3
    have hx := congrArg CameraEye.x h2
    simp only [camEye] at hx
    have e120 : ((120 : ℚ) : ℝ) * Real.pi / 180 = Real.pi - Real.pi / 3 := by
      push_cast
      ring
    have e90 : ((90 : ℚ) : ℝ) * Real.pi / 180 = Real.pi / 2 := by
      push_cast
      ring
    rw [e120, e90, Real.cos_pi_sub, Real.cos_pi_div_three,
      Real.cos_pi_div_two] at hx
    norm_num at hx

/-- Claim C7 as amended: with `frame_count = 4` the camera path consists
of eyes at angles `0°, 120°, 240°, 360°` (evenly spaced, endpoint
included, so the last frame coincides exactly with the first); every
frame has z-elevation exactly `1` and planar radius exactly `1.5`. -/
theorem C7_amended_camera_path :
    cameraFrames 4 = [camEye 0, camEye 120, camEye 240, camEye 360] ∧
    (∀ a : ℚ, (camEye a).z = 1 ∧
      (camEye a).x ^ 2 + (camEye a).y ^ 2 = 1.5 ^ 2) ∧
    camEye 360 = camEye 0 := by
  refine ⟨?_, ?_, ?_⟩
  · rw [cameraFrames]
    have hls : linspace 0 360 4 = [0, 120, 240, 360] := by
      norm_num [linspace, List.range_succ]
    rw [hls]
    rfl
  · intro a
    refine ⟨rfl, ?_⟩
    have hpyth := Real.sin_sq_add_cos_sq ((a : ℝ) * Real.pi / 180)
    simp only [camEye]
    have expand : (1.5 * Real.cos ((a : ℝ) * Real.pi / 180)) ^ 2 +
        (1.5 * Real.sin ((a : ℝ) * Real.pi / 180)) ^ 2 =
        (1.5 : ℝ) ^ 2 * (Real.sin ((a : ℝ) * Real.pi / 180) ^ 2 +
          Real.cos ((a : ℝ) * Real.pi / 180) ^ 2) := by
      ring
    rw [expand, hpyth, mul_one]
  · simp only [camEye]
    have e360 : ((360 : ℚ) : ℝ) * Real.pi / 180 = 2 * Real.pi := by
      push_cast
      ring
    have e0 : ((0 : ℚ) : ℝ) * Real.pi / 180 = 0 := by
      push_cast
      ring
    rw [e360, e0, Real.cos_two_pi, Real.sin_two_pi, Real.cos_zero,
      Real.sin_zero]

/-- Claim C3: for every `point_count ≥ 1` the generated `time_vals` are
monotonically non-decreasing in index order, start at `0`, end at `1`
when `point_count ≥ 2`, and degenerate to the single value `0` (without
error) when `point_count = 1`. -/
theorem C3_time_values (p : PhyllotaxisParams) (hn : 1 ≤ p.num_points) :
    List.Sorted (· ≤ ·) (timeVals p) ∧
    (timeVals p).head? = some 0 ∧
    (2 ≤ p.num_points → (timeVals p).getLast? = some 1) ∧
    (p.num_points = 1 → timeVals p = [0]) := by
  by_cases h1 : p.num_points = 1
  · have ht : timeVals p = [0] := by
      rw [timeVals, h1]
      rfl
    rw [ht]
    exact ⟨by simp, rfl, fun h2 => absurd h1 (by omega), fun _ => rfl⟩
  · have hn2 : 2 ≤ p.num_points := by omega
    have hd : (0 : ℚ) < (p.num_points : ℚ) - 1 := by
      have h2 : (2 : ℚ) ≤ (p.num_points : ℚ) := by exact_mod_cast hn2
      linarith
    have hrepr : timeVals p = (List.range p.num_points).map
        (fun i : ℕ => 0 + (1 - 0) * (i : ℚ) / ((p.num_points : ℚ) - 1)) := by
      rw [timeVals, linspace, if_neg h1]
    refine ⟨?_, ?_, fun _ => ?_, fun h => absurd h h1⟩
    · rw [hrepr]
      refine List.Pairwise.map _ (fun a b hab => ?_)
        (List.sorted_lt_range p.num_points)
      have hab2 : (a : ℚ) ≤ (b : ℚ) := by exact_mod_cast hab.le
      gcongr
    · rw [hrepr]
      obtain ⟨k, hk⟩ : ∃ k, p.num_points = k + 1 := ⟨p.num_points - 1, by omega⟩
      rw [hk, List.range_succ_eq_map, List.map_cons, List.head?_cons]
      norm_num
    · rw [hrepr]
      obtain ⟨m, hm⟩ : ∃ m, p.num_points = m + 1 + 1 :=
        ⟨p.num_points - 2, by omega⟩
      rw [hm, List.range_succ, List.map_append, List.map_cons, List.map_nil,
        List.getLast?_concat]
      have hval : (0 : ℚ) + (1 - 0) * ((m + 1 : ℕ) : ℚ) /
          (((m + 1 + 1 : ℕ) : ℚ) - 1) = 1 := by
        push_cast
        have hne : ((m : ℚ) + 1) ≠ 0 := by positivity
        have hden : ((m : ℚ) + 1 + 1) - 1 = (m : ℚ) + 1 := by ring
        rw [hden]
        field_simp
      rw [hval]

/-- Witness for C3 at `num_points = 3`. -/
theorem C3_time_values_witness :
    List.Sorted (· ≤ ·) (timeVals ⟨3, 1, 1, 4, "blue_to_red"⟩) ∧
    (timeVals ⟨3, 1, 1, 4, "blue_to_red"⟩).head? = some 0 ∧
    (2 ≤ (3 : ℕ) → (timeVals ⟨3, 1, 1, 4, "blue_to_red"⟩).getLast? = some 1) ∧
    ((3 : ℕ) = 1 → timeVals ⟨3, 1, 1, 4, "blue_to_red"⟩ = [0]) :=
  C3_time_values ⟨3, 1, 1, 4, "blue_to_red"⟩ (by decide)
